import Mathlib

/-!
Shallow embedding of the Mesa visualization tutorial notebook
(docs/tutorials/visualization_tutorial.ipynb).

The notebook defines, across its three parts:
* Part 1 (cell 6): a constant `agent_portrayal` returning
  the dict with color "tab:blue" and size 50, never reading the agent.
* Part 2 (cell 13) and Part 3 (cell 17): a threshold `agent_portrayal`
  that starts from size 10 / color "tab:red" and switches to
  size 50 / color "tab:blue" when `agent.wealth > 0`.
* Part 3 (cell 19): a `Histogram` Solara component that extracts
  `wealth_vals = [agent.wealth for agent in model.agents]` and draws
  `ax.hist(wealth_vals, bins=10)` into a fresh `Figure`.

Python dicts built by these functions are embedded as association lists
of string keys and `PValue` values, keeping the literal key order of the
source dict displays. Python attribute access that may fail (an agent
lacking the `wealth` attribute) is embedded with `Option` for the
attribute and `Except` for the raising function.
-/

/-- Value type for portrayal dict entries: a number or a string token. -/
inductive PValue where
  | num (n : Int)
  | str (s : String)
deriving DecidableEq, Repr

/-- String literal "size" used as a dict key in the source. -/
def sizeKey : String := "size"

/-- String literal "color" used as a dict key in the source. -/
def colorKey : String := "color"

/-- String literal "tab:red" from the source. -/
def tabRed : String := "tab:red"

/-- String literal "tab:blue" from the source. -/
def tabBlue : String := "tab:blue"

/-- Message of the Python AttributeError raised when an attribute is missing. -/
def attributeError : String := "AttributeError"

/-- An agent as used by the threshold portrayal function: the caller
contract guarantees a numeric `wealth` attribute. The `unique_id` field
models the rest of the agent's state, which the portrayal never reads. -/
structure Agent where
  unique_id : Nat
  wealth : Int
deriving DecidableEq, Repr

/-- A Python-level agent for which the `wealth` attribute may be missing
(`none` models an absent attribute, on which access raises). -/
structure PyAgent where
  unique_id : Nat
  wealth : Option Int
deriving DecidableEq, Repr

/-- Embedding of the Python attribute read `agent.wealth` on a `PyAgent`:
returns the value when the attribute exists, raises AttributeError otherwise. -/
def getattr_wealth (agent : PyAgent) : Except String Int :=
  match agent.wealth with
  | some w => Except.ok w
  | none => Except.error attributeError

/-- Part 1 `agent_portrayal` (cell 6): returns the constant dict
with color "tab:blue" and size 50, reading nothing from the agent.
Defined on `PyAgent` so that agents without a `wealth` attribute are in
its domain, as in the source. -/
def agent_portrayal_p1 (_agent : PyAgent) : List (String × PValue) :=
  [(colorKey, PValue.str tabBlue), (sizeKey, PValue.num 50)]

/-- Part 2 `agent_portrayal` (cell 13): size 10 and color "tab:red" by
default, switched together to 50 and "tab:blue" when `agent.wealth > 0`;
returns the dict with keys "size" and "color" in that order. -/
def agent_portrayal (agent : Agent) : List (String × PValue) :=
  let size : Int := 10
  let color : String := tabRed
  let sc : Int × String :=
    if agent.wealth > 0 then (50, tabBlue) else (size, color)
  [(sizeKey, PValue.num sc.1), (colorKey, PValue.str sc.2)]

/-- Part 3 `agent_portrayal` (cell 17), a textual re-definition of the
Part 2 function, embedded separately so the two can be compared. -/
def agent_portrayal_p3 (agent : Agent) : List (String × PValue) :=
  let size : Int := 10
  let color : String := tabRed
  let sc : Int × String :=
    if agent.wealth > 0 then (50, tabBlue) else (size, color)
  [(sizeKey, PValue.num sc.1), (colorKey, PValue.str sc.2)]

/-- Embedding of the Part 2 body with the agent threaded as explicit
state: the source performs a single attribute read and no assignment to
the agent, so the agent component it returns is the input agent. -/
def agent_portrayal_st (agent : Agent) : List (String × PValue) × Agent :=
  let size : Int := 10
  let color : String := tabRed
  let w : Int := agent.wealth
  let sc : Int × String :=
    if w > 0 then (50, tabBlue) else (size, color)
  ([(sizeKey, PValue.num sc.1), (colorKey, PValue.str sc.2)], agent)

/-- The threshold `agent_portrayal` lifted to `PyAgent`: the attribute
read may raise, after which the body of cell 13 runs unchanged. -/
def agent_portrayal_py (agent : PyAgent) : Except String (List (String × PValue)) :=
  match getattr_wealth agent with
  | Except.error e => Except.error e
  | Except.ok w =>
    let size : Int := 10
    let color : String := tabRed
    let sc : Int × String :=
      if w > 0 then (50, tabBlue) else (size, color)
    Except.ok [(sizeKey, PValue.num sc.1), (colorKey, PValue.str sc.2)]

/-- The model as the Histogram component sees it: a collection of agents
(`model.agents`). -/
structure Model where
  agents : List Agent
deriving DecidableEq, Repr

/-- The rendered content of the fresh Matplotlib `Figure` after
`ax.hist(wealth_vals, bins=10)`: the data drawn and the bin count. -/
structure Figure where
  hist_data : List Int
  hist_bins : Nat
deriving DecidableEq, Repr

/-- The comprehension `[agent.wealth for agent in model.agents]` from the
body of the `Histogram` component (cell 19). -/
def wealth_vals (model : Model) : List Int :=
  model.agents.map (fun agent => agent.wealth)

/-- The `Histogram` component (cell 19) with the model threaded as
explicit state: it creates a fresh `Figure`, extracts `wealth_vals`,
draws a 10-bin histogram of them into the figure, and hands the figure
to the display primitive; it performs no write to the model, so the
model component it returns is the input model. -/
def Histogram (model : Model) : Figure × Model :=
  let vals : List Int := wealth_vals model
  let fig : Figure := { hist_data := vals, hist_bins := 10 }
  (fig, model)

/-- Branch lemma: with non-positive wealth the threshold portrayal is the
size-10, "tab:red" dict. -/
theorem agent_portrayal_of_nonpos (a : Agent) (hw : ¬ a.wealth > 0) :
    agent_portrayal a = [(sizeKey, PValue.num 10), (colorKey, PValue.str tabRed)] := by
  simp [agent_portrayal, hw]

/-- Branch lemma: with positive wealth the threshold portrayal is the
size-50, "tab:blue" dict. -/
theorem agent_portrayal_of_pos (a : Agent) (hw : a.wealth > 0) :
    agent_portrayal a = [(sizeKey, PValue.num 50), (colorKey, PValue.str tabBlue)] := by
  simp [agent_portrayal, hw]

/-- C1: For every agent whose wealth is at most 0, the threshold
`agent_portrayal` returns a mapping with size 10 and color "tab:red". -/
theorem c1_low_wealth_portrayal (a : Agent) (h : a.wealth ≤ 0) :
    (agent_portrayal a).lookup sizeKey = some (PValue.num 10) ∧
    (agent_portrayal a).lookup colorKey = some (PValue.str tabRed) := by
  rw [agent_portrayal_of_nonpos a (by omega)]
  exact ⟨rfl, rfl⟩

/-- Witness for C1 at a concrete agent of wealth 0. -/
theorem c1_low_wealth_portrayal_witness :
    (agent_portrayal { unique_id := 0, wealth := 0 }).lookup sizeKey
      = some (PValue.num 10) ∧
    (agent_portrayal { unique_id := 0, wealth := 0 }).lookup colorKey
      = some (PValue.str tabRed) :=
  c1_low_wealth_portrayal { unique_id := 0, wealth := 0 } (by decide)

/-- C2: For every agent whose wealth is strictly positive, the threshold
`agent_portrayal` returns a mapping with size 50 and color "tab:blue". -/
theorem c2_high_wealth_portrayal (a : Agent) (h : a.wealth > 0) :
    (agent_portrayal a).lookup sizeKey = some (PValue.num 50) ∧
    (agent_portrayal a).lookup colorKey = some (PValue.str tabBlue) := by
  rw [agent_portrayal_of_pos a h]
  exact ⟨rfl, rfl⟩

/-- Witness for C2 at a concrete agent of wealth 1. -/
theorem c2_high_wealth_portrayal_witness :
    (agent_portrayal { unique_id := 0, wealth := 1 }).lookup sizeKey
      = some (PValue.num 50) ∧
    (agent_portrayal { unique_id := 0, wealth := 1 }).lookup colorKey
      = some (PValue.str tabBlue) :=
  c2_high_wealth_portrayal { unique_id := 0, wealth := 1 } (by decide)

/-- C3: For every model, the wealth sequence extracted by the Histogram
component has length equal to the number of agents, and as a multiset it
equals the multiset of the agents' wealth values. -/
theorem c3_wealth_vals_extraction (m : Model) :
    (wealth_vals m).length = m.agents.length ∧
    ((wealth_vals m : Multiset Int)
      = Multiset.map (fun a => a.wealth) (m.agents : Multiset Agent)) := by
  constructor
  · simp [wealth_vals]
  · simp [wealth_vals]

/-- C4: The threshold `agent_portrayal` is deterministic and side-effect
free: agents with equal wealth receive equal portrayals, and the agent
state after a call is the input agent, unchanged. -/
theorem c4_portrayal_deterministic_pure (a b : Agent)
    (h : a.wealth = b.wealth) :
    agent_portrayal a = agent_portrayal b ∧
    (agent_portrayal_st a).2 = a ∧
    (agent_portrayal_st a).1 = agent_portrayal a := by
  refine ⟨?_, rfl, rfl⟩
  simp [agent_portrayal, h]

/-- Witness for C4 at two distinct concrete agents of equal wealth. -/
theorem c4_portrayal_deterministic_pure_witness :
    agent_portrayal { unique_id := 0, wealth := 3 }
      = agent_portrayal { unique_id := 7, wealth := 3 } ∧
    (agent_portrayal_st { unique_id := 0, wealth := 3 }).2
      = { unique_id := 0, wealth := 3 } ∧
    (agent_portrayal_st { unique_id := 0, wealth := 3 }).1
      = agent_portrayal { unique_id := 0, wealth := 3 } :=
  c4_portrayal_deterministic_pure
    { unique_id := 0, wealth := 3 } { unique_id := 7, wealth := 3 } rfl

/-- C5: For every agent, the size entry of the portrayal returned by the
Part 1 constant function and by the threshold function is a non-negative
number. -/
theorem c5_size_nonneg (a : Agent) (b : PyAgent) :
    (∃ s : Int, (agent_portrayal a).lookup sizeKey = some (PValue.num s)
        ∧ 0 ≤ s) ∧
    (∃ s : Int, (agent_portrayal_p1 b).lookup sizeKey = some (PValue.num s)
        ∧ 0 ≤ s) := by
  constructor
  · by_cases h : a.wealth > 0
    · exact ⟨50, by rw [agent_portrayal_of_pos a h]; decide, by decide⟩
    · exact ⟨10, by rw [agent_portrayal_of_nonpos a h]; decide, by decide⟩
  · exact ⟨50, rfl, by decide⟩

/-- C6: The Histogram component keeps no state between invocations and is
idempotent: it leaves the model unchanged, a repeated invocation on the
resulting model draws the same figure, and the figure drawn holds exactly
the extracted wealth sequence with 10 bins. -/
theorem c6_histogram_stateless_idempotent (m : Model) :
    (Histogram m).2 = m ∧
    (Histogram ((Histogram m).2)).1 = (Histogram m).1 ∧
    (Histogram m).1.hist_data = wealth_vals m ∧
    (Histogram m).1.hist_bins = 10 :=
  ⟨rfl, rfl, rfl, rfl⟩

/-- C7: For every agent, the threshold portrayal has exactly the keys
"size" and "color", in that order, the size bound to a number and the
color to a string token. -/
theorem c7_portrayal_shape (a : Agent) :
    (agent_portrayal a).map Prod.fst = [sizeKey, colorKey] ∧
    ∃ s : Int, ∃ c : String,
      agent_portrayal a = [(sizeKey, PValue.num s), (colorKey, PValue.str c)] := by
  constructor
  · simp [agent_portrayal]
  · by_cases h : a.wealth > 0
    · exact ⟨50, tabBlue, by simp [agent_portrayal, h]⟩
    · exact ⟨10, tabRed, by simp [agent_portrayal, h]⟩

/-- C8: The threshold portrayal on Python-level agents fails exactly when
the wealth attribute is missing: it returns a portrayal iff the attribute
is present, and raises AttributeError iff the attribute is absent. -/
theorem c8_fails_iff_missing_wealth (a : PyAgent) :
    ((∃ p, agent_portrayal_py a = Except.ok p) ↔ a.wealth.isSome) ∧
    (agent_portrayal_py a = Except.error attributeError ↔ a.wealth = none) := by
  cases hw : a.wealth with
  | none =>
      constructor
      · simp [agent_portrayal_py, getattr_wealth, hw]
      · simp [agent_portrayal_py, getattr_wealth, hw]
  | some w =>
      constructor
      · simp [agent_portrayal_py, getattr_wealth, hw]
      · simp [agent_portrayal_py, getattr_wealth, hw]

/-- C9: The Part 1 `agent_portrayal` is constant: every agent, including
one whose wealth attribute is absent, receives exactly the mapping with
color "tab:blue" and size 50, and no attribute of the agent influences
the result. -/
theorem c9_part1_constant (a : PyAgent) :
    agent_portrayal_p1 a
      = [(colorKey, PValue.str tabBlue), (sizeKey, PValue.num 50)] ∧
    agent_portrayal_p1 a
      = agent_portrayal_p1 { unique_id := 0, wealth := none } :=
  ⟨rfl, rfl⟩

/-- C10: The Part 2 and Part 3 definitions of `agent_portrayal` are
extensionally equal: every agent receives identical portrayals. -/
theorem c10_part2_part3_equal (a : Agent) :
    agent_portrayal a = agent_portrayal_p3 a := rfl
